import Mathlib

/-!
Shallow embedding of the gpu-profiler repository.

Sources embedded:
* `src/shared.rs`   — `GpuProfiler` logical-frame state machine (ring of
  `MAX_FRAMES_IN_FLIGHT` frames, begin/end/report protocol, `TimedFrame` report).
* `src/backend/opengl.rs` — `GlProfiler` frame pool (current frame, FIFO waiting
  queue, free pool) over an abstract `GlBackend`, including the drain loop
  `try_get_results` and the awaiting-queue capacity assertion.
* `src/backend/ash.rs`  — the per-pair duration computation of
  `VulkanProfilerFrame::report_durations` (saturating tick subtraction and
  ticks-to-nanoseconds conversion).

Rust panics (assert!/panic!/out-of-range indexing) are modelled as `Except.error`
with the panic message; machine integers are modelled as `Nat` (all quantities
involved stay far below 2^32 / 2^64 in the scenarios considered, and u64
`saturating_sub` agrees with truncated `Nat` subtraction on all in-range values).
The stateful `&mut impl GlBackend` collaborator is modelled as explicit state
passing with a state type `σ`.
-/

namespace GpuProfilerModel

/-- `MAX_FRAMES_IN_FLIGHT` from shared.rs. -/
def MAX_FRAMES_IN_FLIGHT : Nat := 4

/-- `!0u32`, the all-bits-set sentinel component of `ScopeId::invalid`. -/
def U32_MAX : Nat := 2 ^ 32 - 1

/-- `ScopeId { frame: u32, scope: u32 }` from shared.rs. -/
structure ScopeId where
  frame : Nat
  scope : Nat
deriving DecidableEq, Repr

/-- `ScopeId::invalid()`: all bits set in both fields. -/
def ScopeId.invalid : ScopeId := ⟨U32_MAX, U32_MAX⟩

/-- `NanoSecond(u64)` from shared.rs. -/
structure NanoSecond where
  raw_ns : Nat
deriving DecidableEq, Repr

/-- `NanoSecond::from_raw_ns`. -/
def NanoSecond.from_raw_ns (ns : Nat) : NanoSecond := ⟨ns⟩

/-- `Scope { name: String }` from shared.rs. -/
structure Scope where
  name : String
deriving DecidableEq, Repr

/-- `FrameState` from shared.rs: `Invalid` → `Begin{index}` → `End{index}` → `Reported`. -/
inductive FrameState where
  | Invalid : FrameState
  | Begin (index : Nat) : FrameState
  | End (index : Nat) : FrameState
  | Reported : FrameState
deriving DecidableEq, Repr

/-- `Frame { state, scopes }` from shared.rs. -/
structure Frame where
  state : FrameState
  scopes : List Scope
deriving DecidableEq, Repr

/-- `Default` for `Frame`: `Invalid` state, no scopes. -/
def Frame.default : Frame := ⟨.Invalid, []⟩

/-- `TimedScope { name, duration }` from shared.rs. -/
structure TimedScope where
  name : String
  duration : NanoSecond
deriving DecidableEq, Repr

/-- `TimedFrame { scopes }` from shared.rs. -/
structure TimedFrame where
  scopes : List TimedScope
deriving DecidableEq, Repr

/-- `GpuProfiler { frames, frame_idx, last_report }` from shared.rs. -/
structure GpuProfiler where
  frames : List Frame
  frame_idx : Nat
  last_report : Option TimedFrame
deriving DecidableEq, Repr

/-- `Default` for `GpuProfiler`: a ring of `MAX_FRAMES_IN_FLIGHT` default frames. -/
def GpuProfiler.default : GpuProfiler :=
  ⟨List.replicate MAX_FRAMES_IN_FLIGHT Frame.default, 0, none⟩

/-- `GpuProfiler::begin_frame` (shared.rs lines 101-112): asserts that the current
ring slot is not already in `Begin` state, then resets it to `Begin{frame_idx}`
with an empty scope list. -/
def GpuProfiler.begin_frame (p : GpuProfiler) : Except String GpuProfiler :=
  let frame_idx := p.frame_idx
  let slot := p.frame_idx % p.frames.length
  match p.frames[slot]? with
  | none => .error "frame slot out of range"
  | some frame =>
    match frame.state with
    | .Begin _ => .error "begin_frame called twice"
    | _ =>
      .ok { p with frames := p.frames.set slot ⟨.Begin frame_idx, []⟩ }

/-- `GpuProfiler::end_frame` (shared.rs lines 114-125): `Begin{index}` → `End{index}`,
panic otherwise; increments the global frame counter. -/
def GpuProfiler.end_frame (p : GpuProfiler) : Except String GpuProfiler :=
  let slot := p.frame_idx % p.frames.length
  match p.frames[slot]? with
  | none => .error "frame slot out of range"
  | some frame =>
    match frame.state with
    | .Invalid => .error "end_frame called without begin_frame"
    | .Reported => .error "end_frame called without begin_frame"
    | .Begin index =>
      .ok { p with
            frames := p.frames.set slot { frame with state := .End index },
            frame_idx := p.frame_idx + 1 }
    | .End _ => .error "end_frame called twice"

/-- `GpuProfiler::create_scope` (shared.rs lines 127-137): appends a `Scope{name}`
to the current slot's list and returns `ScopeId{frame: frame_idx, scope: position}`. -/
def GpuProfiler.create_scope (p : GpuProfiler) (name : String) :
    Except String (ScopeId × GpuProfiler) :=
  let slot := p.frame_idx % p.frames.length
  match p.frames[slot]? with
  | none => .error "frame slot out of range"
  | some frame =>
    let next_scope_id := frame.scopes.length
    let frame' : Frame := { frame with scopes := frame.scopes ++ [⟨name⟩] }
    .ok (⟨p.frame_idx, next_scope_id⟩, { p with frames := p.frames.set slot frame' })

/-- `std::mem::take(&mut frame.scopes[i].name)` with bounds-checked indexing:
returns the name at index `i` and the scope list with that name replaced by `""`. -/
def takeScopeName (scopes : List Scope) (i : Nat) : Except String (String × List Scope) :=
  match scopes[i]? with
  | none => .error "scope index out of range"
  | some s => .ok (s.name, scopes.set i ⟨""⟩)

/-- The tail of the `report_durations` collection loop (shared.rs lines 164-171):
for each remaining pair, asserts the pair's frame equals the first pair's frame,
moves the scope's name out of the table and pairs it with the supplied duration. -/
def collectRest (first_scope_frame_idx : Nat) :
    List (ScopeId × NanoSecond) → List Scope → Except String (List TimedScope × List Scope)
  | [], scopes => .ok ([], scopes)
  | (scope_id, duration) :: rest, scopes =>
    if scope_id.frame = first_scope_frame_idx then
      match takeScopeName scopes scope_id.scope with
      | .error e => .error e
      | .ok (name, scopes) =>
        match collectRest first_scope_frame_idx rest scopes with
        | .error e => .error e
        | .ok (timed, scopes) => .ok (⟨name, duration⟩ :: timed, scopes)
    else
      .error "scope frame does not match the first scope frame"

/-- `GpuProfiler::report_durations` (shared.rs lines 139-177). An empty sequence
sets `last_report` to `none`. Otherwise the first pair's `frame` field selects the
ring slot (`frame % frames.len()`); the slot must be in `End{index}` state with
`index == first frame` (`Reported` → "called twice" panic, other states →
"called before end_frame" panic); every pair's scope name is moved out of the
slot's scope table and the resulting `TimedFrame` is stored as `last_report`. -/
def GpuProfiler.report_durations (p : GpuProfiler)
    (durations : List (ScopeId × NanoSecond)) : Except String GpuProfiler :=
  match durations with
  | [] => .ok { p with last_report := none }
  | (scope_id, duration) :: rest =>
    let first_scope_frame_idx := scope_id.frame
    let frame_count := p.frames.length
    let slot := first_scope_frame_idx % frame_count
    match p.frames[slot]? with
    | none => .error "frame slot out of range"
    | some frame =>
      match frame.state with
      | .End index =>
        if index = first_scope_frame_idx then
          match takeScopeName frame.scopes scope_id.scope with
          | .error e => .error e
          | .ok (name, scopes) =>
            match collectRest first_scope_frame_idx rest scopes with
            | .error e => .error e
            | .ok (timed, scopes) =>
              .ok { p with
                    frames := p.frames.set slot ⟨.Reported, scopes⟩,
                    last_report := some ⟨⟨name, duration⟩ :: timed⟩ }
        else .error "frame state index does not match the first scope frame"
      | .Reported => .error "report_durations called twice"
      | .Invalid => .error "report_durations called before end_frame"
      | .Begin _ => .error "report_durations called before end_frame"

/-- `GpuProfiler::take_last_report` (shared.rs lines 190-192). -/
def GpuProfiler.take_last_report (p : GpuProfiler) : Option TimedFrame × GpuProfiler :=
  (p.last_report, { p with last_report := none })

/-! ## Theorems for report_durations on the empty sequence (C4, C5) -/

/-- C5: for every profiler state, `report_durations` on the empty sequence is a
legal no-op that clears any previously retained report (`last_report` becomes
`none`) while leaving every logical frame's state and scope list unchanged. -/
theorem report_durations_empty_clears_report (p : GpuProfiler) :
    p.report_durations [] = .ok { p with last_report := none } := rfl

/-- A concrete profiler state holding a previous report, used to show that an
empty `report_durations` call does change `last_report`. -/
def profilerWithReport : GpuProfiler :=
  { GpuProfiler.default with last_report := some ⟨[⟨"draw", ⟨250⟩⟩]⟩ }

/-- C4 counterexample: on a profiler whose `last_report` holds a previous report,
`report_durations []` replaces it with `none`, so `last_report` does change,
contrary to the claim. -/
theorem report_durations_empty_changes_last_report :
    profilerWithReport.report_durations []
        = .ok { profilerWithReport with last_report := none }
      ∧ profilerWithReport.last_report ≠ none := by
  constructor
  · rfl
  · simp [profilerWithReport]

/-- C4 (amended): for every profiler state, `report_durations` on the empty
sequence sets `last_report` to `none` (clearing any previous report) and leaves
every frame's state and scope list unchanged. -/
theorem report_durations_empty_frames_unchanged (p : GpuProfiler) :
    (p.report_durations []).map GpuProfiler.frames = .ok p.frames
      ∧ (p.report_durations []).map GpuProfiler.last_report = .ok none := by
  exact ⟨rfl, rfl⟩

/-! ## begin_frame failure characterization (C10) -/

/-- C10: `begin_frame` panics if and only if the current ring slot's state is
`Begin`; in particular on a slot in `End` state (completed but never reported)
it succeeds and silently resets that frame (state `Begin{frame_idx}`, scopes
discarded) with no failure. -/
theorem begin_frame_fails_iff_begin_state (p : GpuProfiler) (frame : Frame)
    (h : p.frames[p.frame_idx % p.frames.length]? = some frame) :
    ((∃ e, p.begin_frame = .error e) ↔ ∃ i, frame.state = .Begin i)
      ∧ (∀ i, frame.state = .End i →
          p.begin_frame = .ok { p with frames := p.frames.set (p.frame_idx % p.frames.length) ⟨.Begin p.frame_idx, []⟩ }) := by
  obtain ⟨st, scs⟩ := frame
  cases st <;> simp_all [GpuProfiler.begin_frame]

/-- A profiler whose slot 0 holds a completed-but-unreported frame, used to
witness the `begin_frame` characterization. -/
def endStateProfiler : GpuProfiler :=
  ⟨⟨.End 0, [⟨"draw"⟩]⟩ :: List.replicate 3 Frame.default, 0, none⟩

theorem begin_frame_fails_iff_begin_state_witness :
    endStateProfiler.frames[endStateProfiler.frame_idx % endStateProfiler.frames.length]?
        = some ⟨.End 0, [⟨"draw"⟩]⟩
      ∧ (((∃ e, endStateProfiler.begin_frame = .error e) ↔
            ∃ i, (⟨.End 0, [⟨"draw"⟩]⟩ : Frame).state = .Begin i)
          ∧ (∀ i, (⟨.End 0, [⟨"draw"⟩]⟩ : Frame).state = .End i →
              endStateProfiler.begin_frame = .ok { endStateProfiler with frames := endStateProfiler.frames.set (endStateProfiler.frame_idx % endStateProfiler.frames.length) ⟨.Begin endStateProfiler.frame_idx, []⟩ })) :=
  ⟨rfl, begin_frame_fails_iff_begin_state endStateProfiler ⟨.End 0, [⟨"draw"⟩]⟩ rfl⟩

/-! ## Mixed-frame reports fail (C7) -/

/-- If some pair in the tail of a report carries a frame field different from
the first pair's, the collection loop hits the frame-equality assertion (or an
earlier out-of-range panic) and fails. -/
lemma collectRest_mismatch_fails (fidx : Nat) :
    ∀ (pairs : List (ScopeId × NanoSecond)) (scopes : List Scope),
      (∃ pr ∈ pairs, pr.1.frame ≠ fidx) →
      ∃ e, collectRest fidx pairs scopes = .error e := by
  intro pairs
  induction pairs with
  | nil => intro scopes h; simp at h
  | cons hd tl ih =>
    intro scopes h
    obtain ⟨sid, d⟩ := hd
    by_cases hf : sid.frame = fidx
    · have htl : ∃ pr ∈ tl, pr.1.frame ≠ fidx := by
        rcases h with ⟨pr, hpr, hne⟩
        rcases List.mem_cons.mp hpr with rfl | h2
        · exact absurd hf hne
        · exact ⟨pr, h2, hne⟩
      cases hts : takeScopeName scopes sid.scope with
      | error e => exact ⟨e, by simp [collectRest, hf, hts]⟩
      | ok v =>
        obtain ⟨name, scopes'⟩ := v
        obtain ⟨e, he⟩ := ih scopes' htl
        exact ⟨e, by simp [collectRest, hf, hts, he]⟩
    · exact ⟨"scope frame does not match the first scope frame", by simp [collectRest, hf]⟩

/-- C7: a non-empty report in which some pair after the first carries a frame
field different from the first pair's always fails; equivalently, the call can
only succeed when every pair shares the first pair's frame field. -/
theorem report_durations_mixed_frame_fails (p : GpuProfiler) (sid : ScopeId)
    (d : NanoSecond) (rest : List (ScopeId × NanoSecond))
    (h : ∃ pr ∈ rest, pr.1.frame ≠ sid.frame) :
    ∃ e, p.report_durations ((sid, d) :: rest) = .error e := by
  cases hlk : p.frames[sid.frame % p.frames.length]? with
  | none => exact ⟨"frame slot out of range", by simp [GpuProfiler.report_durations, hlk]⟩
  | some frame =>
    obtain ⟨st, scs⟩ := frame
    cases st with
    | End index =>
      by_cases hidx : index = sid.frame
      · cases hts : takeScopeName scs sid.scope with
        | error e => exact ⟨e, by simp [GpuProfiler.report_durations, hlk, hidx, hts]⟩
        | ok v =>
          obtain ⟨name, scopes'⟩ := v
          obtain ⟨e, he⟩ := collectRest_mismatch_fails sid.frame rest scopes' h
          exact ⟨e, by simp [GpuProfiler.report_durations, hlk, hidx, hts, he]⟩
      · exact ⟨"frame state index does not match the first scope frame", by simp [GpuProfiler.report_durations, hlk, hidx]⟩
    | Invalid => exact ⟨"report_durations called before end_frame", by simp [GpuProfiler.report_durations, hlk]⟩
    | Begin i => exact ⟨"report_durations called before end_frame", by simp [GpuProfiler.report_durations, hlk]⟩
    | Reported => exact ⟨"report_durations called twice", by simp [GpuProfiler.report_durations, hlk]⟩

theorem report_durations_mixed_frame_fails_witness :
    (∃ pr ∈ [((⟨1, 0⟩ : ScopeId), (⟨7⟩ : NanoSecond))], pr.1.frame ≠ (⟨0, 0⟩ : ScopeId).frame)
      ∧ ∃ e, GpuProfiler.default.report_durations
          [((⟨0, 0⟩ : ScopeId), ⟨5⟩), ((⟨1, 0⟩ : ScopeId), ⟨7⟩)] = .error e :=
  ⟨by decide, report_durations_mixed_frame_fails GpuProfiler.default ⟨0, 0⟩ ⟨5⟩ _ (by decide)⟩

/-! ## report_durations state transition (C8) -/

/-- C8: a non-empty report targets the slot selected by the first pair's frame
field; it fails if that slot is already `Reported` (double report) or is
`Invalid`/`Begin` (report without end), fails the index assertion when the slot
is `End{i}` with `i` different from the first pair's frame, and any successful
call requires the slot to have been exactly `End{first frame}` and leaves it
`Reported`. -/
theorem report_durations_state_check (p : GpuProfiler) (sid : ScopeId) (d : NanoSecond)
    (rest : List (ScopeId × NanoSecond)) (frame : Frame)
    (h : p.frames[sid.frame % p.frames.length]? = some frame) :
    (frame.state = .Reported →
      p.report_durations ((sid, d) :: rest) = .error "report_durations called twice")
    ∧ (frame.state = .Invalid →
      p.report_durations ((sid, d) :: rest) = .error "report_durations called before end_frame")
    ∧ (∀ i, frame.state = .Begin i →
      p.report_durations ((sid, d) :: rest) = .error "report_durations called before end_frame")
    ∧ (∀ i, frame.state = .End i → i ≠ sid.frame →
      p.report_durations ((sid, d) :: rest)
        = .error "frame state index does not match the first scope frame")
    ∧ (∀ q, p.report_durations ((sid, d) :: rest) = .ok q →
      frame.state = .End sid.frame
        ∧ (q.frames[sid.frame % p.frames.length]?).map Frame.state = some .Reported) := by
  have hlt : sid.frame % p.frames.length < p.frames.length :=
    (List.getElem?_eq_some_iff.mp h).1
  obtain ⟨st, scs⟩ := frame
  cases st with
  | End index =>
    refine ⟨by simp, by simp, by simp, ?_, ?_⟩
    · intro i hi hne
      have : index = i := by simpa using hi
      subst this
      simp [GpuProfiler.report_durations, h, hne]
    · intro q hq
      by_cases hidx : index = sid.frame
      · subst hidx
        refine ⟨rfl, ?_⟩
        cases hts : takeScopeName scs sid.scope with
        | error e => simp [GpuProfiler.report_durations, h, hts] at hq
        | ok v =>
          obtain ⟨name, scopes'⟩ := v
          cases hcr : collectRest sid.frame rest scopes' with
          | error e => simp [GpuProfiler.report_durations, h, hts, hcr] at hq
          | ok w =>
            obtain ⟨timed, scopes''⟩ := w
            have hq' : q = { p with
                frames := p.frames.set (sid.frame % p.frames.length) ⟨.Reported, scopes''⟩,
                last_report := some ⟨⟨name, d⟩ :: timed⟩ } := by
              have := hq
              simp [GpuProfiler.report_durations, h, hts, hcr] at this
              exact this.symm
            subst hq'
            simp [List.getElem?_set_self hlt]
      · simp [GpuProfiler.report_durations, h, hidx] at hq
  | Invalid =>
    refine ⟨by simp, ?_, by simp, by simp, ?_⟩
    · intro _; simp [GpuProfiler.report_durations, h]
    · intro q hq; simp [GpuProfiler.report_durations, h] at hq
  | Begin i =>
    refine ⟨by simp, by simp, ?_, by simp, ?_⟩
    · intro j _; simp [GpuProfiler.report_durations, h]
    · intro q hq; simp [GpuProfiler.report_durations, h] at hq
  | Reported =>
    refine ⟨?_, by simp, by simp, by simp, ?_⟩
    · intro _; simp [GpuProfiler.report_durations, h]
    · intro q hq; simp [GpuProfiler.report_durations, h] at hq

/-- A profiler whose slot 0 was already reported, witnessing the double-report
branch of the state check. -/
def reportedProfiler : GpuProfiler :=
  ⟨⟨.Reported, []⟩ :: List.replicate 3 Frame.default, 1, none⟩

theorem report_durations_state_check_witness :
    reportedProfiler.frames[(⟨0, 0⟩ : ScopeId).frame % reportedProfiler.frames.length]?
        = some ⟨.Reported, []⟩
      ∧ ((⟨.Reported, []⟩ : Frame).state = .Reported →
          reportedProfiler.report_durations [((⟨0, 0⟩ : ScopeId), ⟨5⟩)]
            = .error "report_durations called twice") :=
  ⟨rfl, (report_durations_state_check reportedProfiler ⟨0, 0⟩ ⟨5⟩ [] ⟨.Reported, []⟩ rfl).1⟩

/-! ## Vulkan duration computation (C9), from src/backend/ash.rs -/

/-- Rust `as u64` applied to an f64 value, modelled on exact rationals:
truncation toward zero, saturating at the u64 bounds (negative values clamp
to 0, values above `u64::MAX` clamp to `u64::MAX`). -/
def ratAsU64 (q : ℚ) : Nat := min (⌊q⌋.toNat) (2 ^ 64 - 1)

/-- The per-pair duration computation of `VulkanProfilerFrame::report_durations`
(ash.rs lines 133-140): `duration_ticks = duration_range[1].saturating_sub(duration_range[0])`
followed by `NanoSecond::from_raw_ns((duration_ticks as f64 * ns_per_tick) as u64)`.
The f64 arithmetic is modelled exactly over `ℚ` (`Nat` subtraction is exactly
u64 `saturating_sub` for in-range values; in the saturated case the factor is
exactly `0`, which f64 represents and multiplies exactly). -/
def vulkanPairDuration (ns_per_tick : ℚ) (duration_range : Nat × Nat) : NanoSecond :=
  let duration_ticks : Nat := duration_range.2 - duration_range.1
  NanoSecond.from_raw_ns (ratAsU64 ((duration_ticks : ℚ) * ns_per_tick))

/-- C9: whenever the end tick is below the start tick, the tick subtraction
saturates and the computed duration is exactly 0 nanoseconds, for every tick
period. -/
theorem vulkan_duration_saturates_to_zero (ns_per_tick : ℚ) (r : Nat × Nat)
    (h : r.2 < r.1) :
    vulkanPairDuration ns_per_tick r = NanoSecond.from_raw_ns 0 := by
  have hz : r.2 - r.1 = 0 := Nat.sub_eq_zero_of_le (Nat.le_of_lt h)
  simp [vulkanPairDuration, ratAsU64, hz]

theorem vulkan_duration_saturates_to_zero_witness :
    (1500, 1000).2 < (1500, 1000).1
      ∧ vulkanPairDuration 2 (1500, 1000) = NanoSecond.from_raw_ns 0 :=
  ⟨by decide, vulkan_duration_saturates_to_zero 2 (1500, 1000) (by decide)⟩

/-! ## One-frame end-to-end scenario (C1) -/

/-- Folds `create_scope` over a list of names, returning the created `ScopeId`s
in creation order (the caller-side loop of the C1 scenario). -/
def createScopes : GpuProfiler → List String → Except String (List ScopeId × GpuProfiler)
  | p, [] => .ok ([], p)
  | p, name :: rest =>
    match p.create_scope name with
    | .error e => .error e
    | .ok (sid, p) =>
      match createScopes p rest with
      | .error e => .error e
      | .ok (sids, p) => .ok (sid :: sids, p)

/-- The ScopeIds returned by `n` consecutive `create_scope` calls on frame
`frame` starting at scope position `first`. -/
def seqScopeIds (frame : Nat) : Nat → Nat → List ScopeId
  | _, 0 => []
  | first, n + 1 => ⟨frame, first⟩ :: seqScopeIds frame (first + 1) n

/-- The C1 scenario: from a fresh profiler, `begin_frame`, create one scope per
name, `end_frame`, then a single `report_durations` call supplying one
`(ScopeId, NanoSecond)` pair per created scope in creation order. -/
def oneFrameScenario (names : List String) (durs : List NanoSecond) :
    Except String GpuProfiler :=
  match GpuProfiler.default.begin_frame with
  | .error e => .error e
  | .ok p =>
    match createScopes p names with
    | .error e => .error e
    | .ok (sids, p) =>
      match p.end_frame with
      | .error e => .error e
      | .ok p => p.report_durations (sids.zip durs)

lemma createScopes_run (names : List String) (scs : List Scope) (f1 f2 f3 : Frame)
    (r : Option TimedFrame) :
    createScopes ⟨[⟨.Begin 0, scs⟩, f1, f2, f3], 0, r⟩ names
      = .ok (seqScopeIds 0 scs.length names.length,
             ⟨[⟨.Begin 0, scs ++ names.map Scope.mk⟩, f1, f2, f3], 0, r⟩) := by
  induction names generalizing scs with
  | nil => simp [createScopes, seqScopeIds]
  | cons name rest ih =>
    have hstep : createScopes (⟨[⟨.Begin 0, scs⟩, f1, f2, f3], 0, r⟩ : GpuProfiler)
        (name :: rest)
        = match createScopes (⟨[⟨.Begin 0, scs ++ [⟨name⟩]⟩, f1, f2, f3], 0, r⟩ : GpuProfiler)
            rest with
          | .error e => .error e
          | .ok (sids, p) => .ok ((⟨0, scs.length⟩ : ScopeId) :: sids, p) := rfl
    rw [hstep, ih (scs ++ [Scope.mk name])]
    simp [seqScopeIds, List.append_assoc]

/-- `(l₁ ++ x :: l₂)[l₁.length] = x`, the lookup done by `takeScopeName` when the
scope table is a prefix of already-consumed scopes followed by fresh ones. -/
lemma getElem?_append_cons (l1 : List Scope) (x : Scope) (l2 : List Scope) :
    (l1 ++ x :: l2)[l1.length]? = some x := by
  rw [List.getElem?_append_right (Nat.le_refl _)]
  simp

lemma collectRest_seq (fidx : Nat) (names : List String) :
    ∀ (durs : List NanoSecond) (taken : List Scope), names.length = durs.length →
      collectRest fidx ((seqScopeIds fidx taken.length names.length).zip durs)
          (taken ++ names.map Scope.mk)
        = .ok (List.zipWith (fun n d => ⟨n, d⟩) names durs,
               taken ++ names.map (fun _ => (⟨""⟩ : Scope))) := by
  induction names with
  | nil =>
    intro durs taken hlen
    cases durs with
    | nil => simp [seqScopeIds, collectRest]
    | cons d drest => simp at hlen
  | cons name rest ih =>
    intro durs taken hlen
    cases durs with
    | nil => simp at hlen
    | cons d drest =>
      have hlen' : rest.length = drest.length := by simpa using hlen
      have htake : takeScopeName (taken ++ Scope.mk name :: rest.map Scope.mk) taken.length
          = .ok (name, taken ++ Scope.mk "" :: rest.map Scope.mk) := by
        unfold takeScopeName
        rw [getElem?_append_cons]
        rw [List.set_append_right _ _ (Nat.le_refl _)]
        simp
      have hrec := ih drest (taken ++ [⟨""⟩]) hlen'
      simp only [List.length_append, List.length_cons, List.length_nil, Nat.zero_add,
        List.append_assoc, List.cons_append, List.nil_append, List.zip] at hrec
      simp only [seqScopeIds, List.map_cons, List.zip, List.zipWith_cons_cons,
        collectRest, htake]
      simp [hrec]

/-- C1 counterexample (the `n = 0` boundary): creating zero scopes and supplying
zero pairs leaves `last_report` equal to `none` — not a retained `TimedFrame`
with zero scopes. -/
theorem one_frame_report_empty_clears :
    (oneFrameScenario [] []).map GpuProfiler.last_report = .ok none
      ∧ (none : Option TimedFrame) ≠ some ⟨[]⟩ := by
  exact ⟨rfl, by simp⟩

/-- C1 (amended to `n ≥ 1`): for every non-empty list of scope names and
durations of equal length, the scenario succeeds and `last_report` holds a
`TimedFrame` whose entries pair each created scope's name with the supplied
duration, in the order the pairs were supplied (hence scope count = n). -/
theorem one_frame_report (names : List String) (durs : List NanoSecond)
    (hlen : names.length = durs.length) (hne : names ≠ []) :
    (oneFrameScenario names durs).map GpuProfiler.last_report
      = .ok (some ⟨List.zipWith (fun n d => ⟨n, d⟩) names durs⟩) := by
  cases names with
  | nil => exact absurd rfl hne
  | cons n0 nrest =>
    cases durs with
    | nil => simp at hlen
    | cons d0 drest =>
      have hlen' : nrest.length = drest.length := by simpa using hlen
      have h1 : GpuProfiler.default.begin_frame
          = .ok (⟨[⟨.Begin 0, []⟩, Frame.default, Frame.default, Frame.default], 0, none⟩ :
              GpuProfiler) := rfl
      have h2 := createScopes_run (n0 :: nrest) [] Frame.default Frame.default Frame.default none
      simp only [List.length_nil, List.nil_append] at h2
      have h3 : (⟨[⟨.Begin 0, (n0 :: nrest).map Scope.mk⟩, Frame.default, Frame.default,
            Frame.default], 0, none⟩ : GpuProfiler).end_frame
          = .ok (⟨[⟨.End 0, (n0 :: nrest).map Scope.mk⟩, Frame.default, Frame.default,
              Frame.default], 1, none⟩ : GpuProfiler) := rfl
      have hrep : (⟨[⟨.End 0, (n0 :: nrest).map Scope.mk⟩, Frame.default, Frame.default,
            Frame.default], 1, none⟩ : GpuProfiler).report_durations
            ((seqScopeIds 0 0 (n0 :: nrest).length).zip (d0 :: drest))
          = .ok (⟨[⟨.Reported, (n0 :: nrest).map (fun _ => (⟨""⟩ : Scope))⟩, Frame.default,
              Frame.default, Frame.default], 1,
              some ⟨List.zipWith (fun n d => ⟨n, d⟩) (n0 :: nrest) (d0 :: drest)⟩⟩ :
              GpuProfiler) := by
        have hcr := collectRest_seq 0 nrest drest [⟨""⟩] hlen'
        simp only [List.length_cons, List.length_nil, Nat.zero_add, List.cons_append,
          List.nil_append] at hcr
        simp only [seqScopeIds, List.length_cons, List.zip_cons_cons,
          GpuProfiler.report_durations]
        simp only [takeScopeName, List.map_cons]
        simp [hcr]
      simp only [oneFrameScenario, h1, h2, h3, hrep]
      rfl

theorem one_frame_report_witness :
    (["draw"].length = [(⟨250⟩ : NanoSecond)].length ∧ (["draw"] : List String) ≠ [])
      ∧ (oneFrameScenario ["draw"] [⟨250⟩]).map GpuProfiler.last_report
          = .ok (some ⟨[⟨"draw", ⟨250⟩⟩]⟩) :=
  ⟨⟨rfl, by simp⟩, one_frame_report ["draw"] [⟨250⟩] rfl (by simp)⟩

/-! ## Ring wrap-around detection (C2) -/

/-- One begin/end logical-frame cycle, creating the given scopes in between. -/
def frameCycle (p : GpuProfiler) (names : List String) : Except String GpuProfiler :=
  match p.begin_frame with
  | .error e => .error e
  | .ok p =>
    match createScopes p names with
    | .error e => .error e
    | .ok (_, p) => p.end_frame

/-- One frame cycle per entry of `nss`: issues `nss.length` logical frames
without ever reporting any of them. -/
def runCycles : GpuProfiler → List (List String) → Except String GpuProfiler
  | p, [] => .ok p
  | p, nss :: rest =>
    match frameCycle p nss with
    | .error e => .error e
    | .ok p => runCycles p rest

/-- Invariant after `n` unreported begin/end cycles from a fresh profiler:
the counter is `n`, the ring has 4 slots, slots never begun are `Invalid`, and
each used slot `j` holds `End i` where `i` is the most recent cycle on that
slot: `i ≡ j (mod 4)` and `n - 4 ≤ i < n`. -/
def cyclesInv (n : Nat) (p : GpuProfiler) : Prop :=
  p.frame_idx = n ∧ p.frames.length = 4 ∧
  (∀ j, j < 4 → n ≤ j → (p.frames[j]?).map Frame.state = some .Invalid) ∧
  (∀ j, j < 4 → j < n →
    ∃ i, (p.frames[j]?).map Frame.state = some (.End i) ∧ i % 4 = j ∧ i < n ∧ n ≤ i + 4)

lemma cyclesInv_zero : cyclesInv 0 GpuProfiler.default := by
  refine ⟨rfl, rfl, ?_, ?_⟩
  · intro j hj _
    have : (List.replicate 4 Frame.default)[j]? = some Frame.default :=
      List.getElem?_replicate_of_lt hj
    simp only [GpuProfiler.default, MAX_FRAMES_IN_FLIGHT]
    rw [this]
    rfl
  · intro j _ hj
    omega

lemma begin_frame_ok_of_not_begin (p : GpuProfiler) (fr : Frame)
    (h : p.frames[p.frame_idx % p.frames.length]? = some fr)
    (hb : ∀ i, fr.state ≠ .Begin i) :
    p.begin_frame = .ok { p with frames := p.frames.set (p.frame_idx % p.frames.length) ⟨.Begin p.frame_idx, []⟩ } := by
  obtain ⟨st, scs⟩ := fr
  cases st with
  | Begin i => exact absurd rfl (hb i)
  | Invalid => simp [GpuProfiler.begin_frame, h]
  | End i => simp [GpuProfiler.begin_frame, h]
  | Reported => simp [GpuProfiler.begin_frame, h]

lemma end_frame_ok_of_begin (p : GpuProfiler) (fr : Frame) (i : Nat)
    (h : p.frames[p.frame_idx % p.frames.length]? = some fr) (hst : fr.state = .Begin i) :
    p.end_frame = .ok { p with frames := p.frames.set (p.frame_idx % p.frames.length) ({ fr with state := .End i }), frame_idx := p.frame_idx + 1 } := by
  obtain ⟨st, scs⟩ := fr
  cases st <;> simp_all [GpuProfiler.end_frame]

/-- `createScopes` always succeeds on a profiler with a non-empty ring, and only
appends scopes: the frame counter, ring length and every slot's state are
preserved. -/
lemma createScopes_preserves (names : List String) :
    ∀ (p : GpuProfiler), p.frames.length ≠ 0 →
      ∃ sids q, createScopes p names = .ok (sids, q) ∧ q.frame_idx = p.frame_idx ∧
        q.frames.length = p.frames.length ∧
        (∀ j : Nat, (q.frames[j]?).map Frame.state = (p.frames[j]?).map Frame.state) := by
  induction names with
  | nil => exact fun p _ => ⟨[], p, rfl, rfl, rfl, fun j => rfl⟩
  | cons name rest ih =>
    intro p hlen
    have hslot : p.frame_idx % p.frames.length < p.frames.length :=
      Nat.mod_lt _ (Nat.pos_of_ne_zero hlen)
    obtain ⟨fr, hlk⟩ : ∃ fr, p.frames[p.frame_idx % p.frames.length]? = some fr :=
      ⟨_, List.getElem?_eq_getElem hslot⟩
    have hq1 : p.create_scope name = .ok (⟨p.frame_idx, fr.scopes.length⟩,
        { p with frames := p.frames.set (p.frame_idx % p.frames.length) ({ fr with scopes := fr.scopes ++ [⟨name⟩] }) }) := by
      simp [GpuProfiler.create_scope, hlk]
    set q1 : GpuProfiler :=
      { p with frames := p.frames.set (p.frame_idx % p.frames.length) ({ fr with scopes := fr.scopes ++ [⟨name⟩] }) } with hq1def
    have hlen1 : q1.frames.length = p.frames.length := by simp [hq1def]
    obtain ⟨sids, q, hrun, hidx, hlenq, hstates⟩ := ih q1 (by rw [hlen1]; exact hlen)
    refine ⟨⟨p.frame_idx, fr.scopes.length⟩ :: sids, q, ?_, ?_, ?_, ?_⟩
    · simp [createScopes, hq1, hrun]
    · rw [hidx]
    · rw [hlenq, hlen1]
    · intro j
      rw [hstates j]
      by_cases hj : j = p.frame_idx % p.frames.length
      · subst hj
        rw [hq1def]
        simp only
        rw [List.getElem?_set_self hslot, hlk]
        rfl
      · rw [hq1def]
        simp only
        rw [List.getElem?_set_ne (fun hc => hj hc.symm)]

/-- Running one more unreported cycle preserves the invariant. -/
lemma frameCycle_step (n : Nat) (p : GpuProfiler) (names : List String)
    (h : cyclesInv n p) : ∃ q, frameCycle p names = .ok q ∧ cyclesInv (n + 1) q := by
  obtain ⟨hidx, hlen, hInvalid, hEnd⟩ := h
  have hlen0 : p.frames.length ≠ 0 := by omega
  have hslotlt : n % 4 < 4 := Nat.mod_lt _ (by omega)
  have hslot : p.frame_idx % p.frames.length = n % 4 := by rw [hidx, hlen]
  have hslotlt' : n % 4 < p.frames.length := by omega
  obtain ⟨fr, hlk⟩ : ∃ fr, p.frames[n % 4]? = some fr :=
    ⟨_, List.getElem?_eq_getElem hslotlt'⟩
  have hnotbegin : ∀ i, fr.state ≠ .Begin i := by
    intro i hc
    by_cases hcase : n ≤ n % 4
    · have := hInvalid (n % 4) hslotlt hcase
      rw [hlk] at this
      simp [hc] at this
    · have := hEnd (n % 4) hslotlt (by omega)
      obtain ⟨i', hi', _⟩ := this
      rw [hlk] at hi'
      simp [hc] at hi'
  have hbegin := begin_frame_ok_of_not_begin p fr (by rw [hslot]; exact hlk) hnotbegin
  set p1 : GpuProfiler :=
    { p with frames := p.frames.set (p.frame_idx % p.frames.length) ⟨.Begin p.frame_idx, []⟩ } with hp1def
  have hp1len : p1.frames.length = 4 := by simp [hp1def, hlen]
  have hp1idx : p1.frame_idx = n := hidx
  have hp1slot : p1.frames[n % 4]? = some ⟨.Begin n, []⟩ := by
    rw [hp1def]
    simp only
    rw [hslot, hidx, List.getElem?_set_self (by omega : n % 4 < p.frames.length)]
  have hp1other : ∀ j, j ≠ n % 4 → (p1.frames[j]?).map Frame.state = (p.frames[j]?).map Frame.state := by
    intro j hj
    rw [hp1def]
    simp only
    rw [hslot, hidx, List.getElem?_set_ne (fun hc => hj hc.symm)]
  obtain ⟨sids, p2, hrun, hp2idx, hp2len, hp2states⟩ := createScopes_preserves names p1
    (by rw [hp1len]; omega)
  have hp2slot : ∃ fr2, p2.frames[n % 4]? = some fr2 ∧ fr2.state = .Begin n := by
    have := hp2states (n % 4)
    rw [hp1slot] at this
    cases hq : p2.frames[n % 4]? with
    | none => rw [hq] at this; simp at this
    | some fr2 =>
      rw [hq] at this
      simp at this
      exact ⟨fr2, rfl, this⟩
  obtain ⟨fr2, hfr2, hfr2st⟩ := hp2slot
  have hp2slot' : p2.frame_idx % p2.frames.length = n % 4 := by
    rw [hp2idx, hp1idx, hp2len, hp1len]
  have hendok := end_frame_ok_of_begin p2 fr2 n (by rw [hp2slot']; exact hfr2) hfr2st
  set q : GpuProfiler :=
    { p2 with frames := p2.frames.set (p2.frame_idx % p2.frames.length) ({ fr2 with state := .End n }), frame_idx := p2.frame_idx + 1 } with hqdef
  refine ⟨q, ?_, ?_, ?_, ?_, ?_⟩
  · simp [frameCycle, hbegin, ← hp1def, hrun, hendok]
  · rw [hqdef]
    simp only
    rw [hp2idx, hp1idx]
  · rw [hqdef]
    simp only
    rw [List.length_set, hp2len, hp1len]
  · intro j hj4 hjge
    have hjne : j ≠ n % 4 := by omega
    have hq1 : (q.frames[j]?).map Frame.state = (p.frames[j]?).map Frame.state := by
      rw [hqdef]
      simp only
      rw [hp2slot', List.getElem?_set_ne (fun hc => hjne hc.symm), hp2states j, hp1other j hjne]
    rw [hq1]
    exact hInvalid j hj4 (by omega)
  · intro j hj4 hjlt
    by_cases hjs : j = n % 4
    · subst hjs
      refine ⟨n, ?_, rfl, by omega, by omega⟩
      rw [hqdef]
      simp only
      rw [hp2slot', List.getElem?_set_self (by rw [hp2len, hp1len]; omega)]
      rfl
    · have hjltn : j < n := by omega
      obtain ⟨i, hi, him, hiln, hige⟩ := hEnd j hj4 hjltn
      refine ⟨i, ?_, him, by omega, by omega⟩
      rw [hqdef]
      simp only
      rw [hp2slot', List.getElem?_set_ne (fun hc => hjs hc.symm), hp2states j, hp1other j hjs, hi]

lemma runCycles_inv (nss : List (List String)) :
    ∀ (n : Nat) (p : GpuProfiler), cyclesInv n p →
      ∃ q, runCycles p nss = .ok q ∧ cyclesInv (n + nss.length) q := by
  induction nss with
  | nil => exact fun n p h => ⟨p, rfl, by simpa using h⟩
  | cons ns rest ih =>
    intro n p h
    obtain ⟨q, hq, hinv⟩ := frameCycle_step n p ns h
    obtain ⟨r, hr, hinvr⟩ := ih (n + 1) q hinv
    refine ⟨r, ?_, ?_⟩
    · simp [runCycles, hq, hr]
    · have : n + 1 + rest.length = n + (ns :: rest).length := by simp; omega
      rw [← this]
      exact hinvr

/-- C2: if more than `MAX_FRAMES_IN_FLIGHT = 4` logical frames are issued
(begin/end cycles, with arbitrary scopes created in each) before the oldest is
reported, the oldest frame's ring slot has been overwritten, and a subsequent
`report_durations` call whose pairs carry the oldest frame's ScopeIds (frame
field 0) fails on the `FrameState` index assertion instead of producing a
`TimedFrame` that attributes those durations to a different frame's scopes. -/
theorem overwritten_frame_report_fails (nss : List (List String)) (hn : 4 < nss.length)
    (sid : ScopeId) (hsid : sid.frame = 0) (d : NanoSecond)
    (rest : List (ScopeId × NanoSecond)) :
    ∃ q, runCycles GpuProfiler.default nss = .ok q ∧
      q.report_durations ((sid, d) :: rest)
        = .error "frame state index does not match the first scope frame" := by
  obtain ⟨q, hq, hinv⟩ := runCycles_inv nss 0 GpuProfiler.default cyclesInv_zero
  obtain ⟨hidx, hlen, hInvalid, hEnd⟩ := hinv
  obtain ⟨i, hst, hmod, hlt, hge⟩ := hEnd 0 (by omega) (by omega)
  have hne : ¬(i = 0) := by omega
  have h0 : ∃ fr, q.frames[0]? = some fr ∧ fr.state = .End i := by
    cases hq0 : q.frames[0]? with
    | none => rw [hq0] at hst; simp at hst
    | some fr =>
      rw [hq0] at hst
      simp at hst
      exact ⟨fr, rfl, hst⟩
  obtain ⟨fr, hfr, hfrst⟩ := h0
  refine ⟨q, hq, ?_⟩
  obtain ⟨st, scs⟩ := fr
  have hst' : st = .End i := hfrst
  subst hst'
  simp [GpuProfiler.report_durations, hsid, hlen, hfr, hne]

theorem overwritten_frame_report_fails_witness :
    (4 < ([[], [], [], [], []] : List (List String)).length
        ∧ (⟨0, 0⟩ : ScopeId).frame = 0)
      ∧ ∃ q, runCycles GpuProfiler.default [[], [], [], [], []] = .ok q ∧
          q.report_durations [((⟨0, 0⟩ : ScopeId), ⟨1⟩)]
            = .error "frame state index does not match the first scope frame" :=
  ⟨⟨by decide, rfl⟩,
   overwritten_frame_report_fails [[], [], [], [], []] (by decide) ⟨0, 0⟩ rfl ⟨1⟩ []⟩

/-! ## OpenGL frame pool embedding (src/backend/opengl.rs)

The `&mut impl GlBackend` collaborator is modelled as explicit state passing
over a state type `σ`; calls to the global profiler (`crate::profiler()`) are
modelled by threading a `GpuProfiler` value, and the sequence of argument lists
passed to `report_durations` is returned as an explicit trace. The Rust
`[0..n]` slices are modelled with `take`; for frames built by this code
`n ≤ MAX_QUERY_COUNT` holds, where both agree. -/

/-- `MAX_QUERY_COUNT` from opengl.rs. -/
def MAX_QUERY_COUNT : Nat := 1024

/-- `GL_QUERY_RESULT_AVAILABLE`. -/
def QUERY_RESULT_AVAILABLE : Nat := 0x8867

/-- `GL_QUERY_RESULT`. -/
def QUERY_RESULT : Nat := 0x8866

/-- `GL_TIME_ELAPSED`. -/
def TIME_ELAPSED : Nat := 0x88BF

/-- The `GlBackend` trait (opengl.rs lines 30-36), as a stateful collaborator:
`GetQueryObjectiv id pname` yields the queried integer (the code queries only
`QUERY_RESULT_AVAILABLE`), `GetQueryObjectui64v id pname` the 64-bit result,
`GenQueries n` the ids written into an `n`-element buffer. -/
structure GlBackend (σ : Type) where
  GetQueryObjectiv : Nat → Nat → σ → Int × σ
  GetQueryObjectui64v : Nat → Nat → σ → Nat × σ
  GenQueries : Nat → σ → List Nat × σ
  BeginQuery : Nat → Nat → σ → σ
  EndQuery : Nat → σ → σ

/-- `GlProfilerFrame` (opengl.rs lines 40-45). -/
structure GlProfilerFrame where
  query_handles : List Nat
  next_query_idx : Nat
  query_scope_ids : List ScopeId
  results_buffer : List Nat
deriving DecidableEq, Repr

/-- `GlActiveScope` (opengl.rs lines 47-49). -/
structure GlActiveScope where
  query_handle : Nat
deriving DecidableEq, Repr

/-- `GlProfilerFrame::new` (opengl.rs lines 52-61): `GenQueries` fills a zeroed
`MAX_QUERY_COUNT`-element id buffer; scope-id table starts all-invalid. -/
def GlProfilerFrame.new {σ : Type} (b : GlBackend σ) (s : σ) : GlProfilerFrame × σ :=
  let gen := b.GenQueries MAX_QUERY_COUNT s
  ({ query_handles := (gen.1 ++ List.replicate MAX_QUERY_COUNT 0).take MAX_QUERY_COUNT,
     next_query_idx := 0,
     query_scope_ids := List.replicate MAX_QUERY_COUNT ScopeId.invalid,
     results_buffer := List.replicate MAX_QUERY_COUNT 0 }, gen.2)

/-- `GlProfilerFrame::begin_scope` (opengl.rs lines 63-78): claims the next query
index, records the scope id at that index, begins the timer query. -/
def GlProfilerFrame.begin_scope {σ : Type} (f : GlProfilerFrame) (b : GlBackend σ) (s : σ)
    (scope_id : ScopeId) : Except String ((GlActiveScope × GlProfilerFrame) × σ) :=
  let query_id := f.next_query_idx
  if query_id < f.query_scope_ids.length then
    match f.query_handles[query_id]? with
    | none => .error "query handle index out of range"
    | some query_handle =>
      .ok ((⟨query_handle⟩,
            { f with next_query_idx := query_id + 1,
                     query_scope_ids := f.query_scope_ids.set query_id scope_id }),
           b.BeginQuery TIME_ELAPSED query_handle s)
  else .error "query scope id index out of range"

/-- `GlProfilerFrame::end_scope` (opengl.rs lines 80-83): asserts that the scope
being closed is the most recently opened one, then ends the timer query. -/
def GlProfilerFrame.end_scope {σ : Type} (f : GlProfilerFrame) (b : GlBackend σ) (s : σ)
    (active_scope : GlActiveScope) : Except String σ :=
  if f.next_query_idx = 0 then .error "next query index underflow"
  else
    match f.query_handles[f.next_query_idx - 1]? with
    | none => .error "query handle index out of range"
    | some handle =>
      if active_scope.query_handle = handle then .ok (b.EndQuery TIME_ELAPSED s)
      else .error "end_scope does not close the most recently opened scope"

/-- The short-circuiting availability poll of `GlProfilerFrame::read_results`
(opengl.rs lines 88-94): `GetQueryObjectiv(handle, QUERY_RESULT_AVAILABLE)` per
handle via `Iterator::all`, stopping at the first unavailable one. -/
def pollAvailability {σ : Type} (b : GlBackend σ) : List Nat → σ → Bool × σ
  | [], s => (true, s)
  | handle :: rest, s =>
    let av := b.GetQueryObjectiv handle QUERY_RESULT_AVAILABLE s
    if av.1 ≠ 0 then pollAvailability b rest av.2 else (false, av.2)

/-- The readback loop of `GlProfilerFrame::read_results` (opengl.rs lines
97-104): `GetQueryObjectui64v(handle, QUERY_RESULT)` per handle, in order. -/
def readbackResults {σ : Type} (b : GlBackend σ) : List Nat → σ → List Nat × σ
  | [], s => ([], s)
  | handle :: rest, s =>
    let v := b.GetQueryObjectui64v handle QUERY_RESULT s
    let vs := readbackResults b rest v.2
    (v.1 :: vs.1, vs.2)

/-- Whether every one of a frame's used queries reports available under backend
state `s` — the guard computed by `read_results`. -/
def frameAvailable {σ : Type} (b : GlBackend σ) (f : GlProfilerFrame) (s : σ) : Bool :=
  (pollAvailability b (f.query_handles.take f.next_query_idx) s).1

/-- `GlProfilerFrame::read_results` (opengl.rs lines 85-113): if all of the first
`next_query_idx` queries are available, reads their results into the results
buffer and returns the first `next_query_idx` scope ids and results; otherwise
`none` with the buffer untouched. -/
def GlProfilerFrame.read_results {σ : Type} (f : GlProfilerFrame) (b : GlBackend σ) (s : σ) :
    Option (List ScopeId × List Nat) × GlProfilerFrame × σ :=
  let result_count := f.next_query_idx
  let poll := pollAvailability b (f.query_handles.take result_count) s
  if poll.1 then
    let write_count := min result_count (min f.query_handles.length f.results_buffer.length)
    let readback := readbackResults b (f.query_handles.take write_count) poll.2
    let buffer := readback.1 ++ f.results_buffer.drop write_count
    (some (f.query_scope_ids.take result_count, buffer.take result_count),
     { f with results_buffer := buffer }, readback.2)
  else (none, f, poll.2)

/-- `GlProfilerFrame::reset` (opengl.rs lines 115-117). -/
def GlProfilerFrame.reset (f : GlProfilerFrame) : GlProfilerFrame :=
  { f with next_query_idx := 0 }

/-- `GlProfiler` (opengl.rs lines 120-125): current recording frame, FIFO queue
of frames awaiting readback (front = oldest), and a free pool (a stack: frames
are pushed and popped at the back). -/
structure GlProfiler where
  current_frame : Option GlProfilerFrame
  waiting_frames : List GlProfilerFrame
  frame_pool : List GlProfilerFrame
deriving DecidableEq, Repr

/-- `GlProfiler::new` / `Default`. -/
def GlProfiler.new : GlProfiler := ⟨none, [], []⟩

/-- The drain loop of `GlProfiler::try_get_results` (opengl.rs lines 180-197):
repeatedly polls the front of the waiting queue; each frame that yields results
is reported to the global profiler (argument list recorded in the returned
trace), reset, and recycled to the pool; the loop stops at the first frame
whose results are not yet available. -/
def drainWaiting {σ : Type} (b : GlBackend σ) :
    List GlProfilerFrame → List GlProfilerFrame → σ → GpuProfiler →
    Except String (List GlProfilerFrame × List GlProfilerFrame × σ × GpuProfiler ×
      List (List (ScopeId × NanoSecond)))
  | [], pool, s, prof => .ok ([], pool, s, prof, [])
  | frame :: rest, pool, s, prof =>
    match frame.read_results b s with
    | (some (scopes, durations), frame, s) =>
      let report := scopes.zip (durations.map NanoSecond.from_raw_ns)
      match prof.report_durations report with
      | .error e => .error e
      | .ok prof =>
        match drainWaiting b rest (pool ++ [frame.reset]) s prof with
        | .error e => .error e
        | .ok (waiting, pool, s, prof, trace) =>
          .ok (waiting, pool, s, prof, report :: trace)
    | (none, frame, s) => .ok (frame :: rest, pool, s, prof, [])

/-- `GlProfiler::try_get_results` (opengl.rs lines 180-197), with the sequence of
`report_durations` argument lists returned as a trace. -/
def GlProfiler.try_get_results {σ : Type} (gl : GlProfiler) (b : GlBackend σ) (s : σ)
    (prof : GpuProfiler) :
    Except String (GlProfiler × σ × GpuProfiler × List (List (ScopeId × NanoSecond))) :=
  match drainWaiting b gl.waiting_frames gl.frame_pool s prof with
  | .error e => .error e
  | .ok (waiting, pool, s, prof, trace) =>
    .ok ({ gl with waiting_frames := waiting, frame_pool := pool }, s, prof, trace)

/-- `GlProfiler::begin_frame` (opengl.rs lines 132-144): asserts no frame is
being recorded, drains available results, begins the global logical frame, then
takes a pooled frame (popping the back of the pool `Vec`) or constructs one. -/
def GlProfiler.begin_frame {σ : Type} (gl : GlProfiler) (b : GlBackend σ) (s : σ)
    (prof : GpuProfiler) :
    Except String (GlProfiler × σ × GpuProfiler × List (List (ScopeId × NanoSecond))) :=
  if gl.current_frame.isSome then .error "begin_frame called twice"
  else
    match gl.try_get_results b s prof with
    | .error e => .error e
    | .ok (gl, s, prof, trace) =>
      match prof.begin_frame with
      | .error e => .error e
      | .ok prof =>
        match gl.frame_pool.getLast? with
        | some frame =>
          .ok ({ gl with current_frame := some frame, frame_pool := gl.frame_pool.dropLast },
               s, prof, trace)
        | none =>
          let made := GlProfilerFrame.new b s
          .ok ({ gl with current_frame := some made.1 }, made.2, prof, trace)

/-- `GlProfiler::end_frame` (opengl.rs lines 146-160): moves the current frame to
the back of the waiting queue, asserts `waiting_frames.len() < 10` ("OpenGL
queries failed to become available"), then ends the global logical frame. -/
def GlProfiler.end_frame (gl : GlProfiler) (prof : GpuProfiler) :
    Except String (GlProfiler × GpuProfiler) :=
  match gl.current_frame with
  | none => .error "end_frame called before begin_frame"
  | some frame =>
    let waiting := gl.waiting_frames ++ [frame]
    if waiting.length < 10 then
      match prof.end_frame with
      | .error e => .error e
      | .ok prof => .ok ({ gl with current_frame := none, waiting_frames := waiting }, prof)
    else .error "OpenGL queries failed to become available"

/-- `GlProfiler::begin_scope` (opengl.rs lines 162-171). -/
def GlProfiler.begin_scope {σ : Type} (gl : GlProfiler) (b : GlBackend σ) (s : σ)
    (scope_id : ScopeId) : Except String (GlActiveScope × GlProfiler × σ) :=
  match gl.current_frame with
  | none => .error "begin_scope called before begin_frame"
  | some f =>
    match f.begin_scope b s scope_id with
    | .error e => .error e
    | .ok (af, s) => .ok (af.1, { gl with current_frame := some af.2 }, s)

/-- `GlProfiler::end_scope` (opengl.rs lines 173-178). -/
def GlProfiler.end_scope {σ : Type} (gl : GlProfiler) (b : GlBackend σ) (s : σ)
    (active_scope : GlActiveScope) : Except String σ :=
  match gl.current_frame with
  | none => .error "end_scope called before begin_frame"
  | some f => f.end_scope b s active_scope

/-! ## FIFO draining of the waiting queue (C3) -/

/-- Well-formedness of a pooled frame: the used-query count stays within the
fixed-capacity tables, as holds for every frame this code constructs
(`begin_scope` bounds-checks before incrementing). -/
abbrev GlProfilerFrame.wf (f : GlProfilerFrame) : Prop :=
  f.next_query_idx ≤ f.query_scope_ids.length ∧
  f.next_query_idx ≤ f.query_handles.length ∧
  f.next_query_idx ≤ f.results_buffer.length

lemma readbackResults_length {σ : Type} (b : GlBackend σ) :
    ∀ (handles : List Nat) (s : σ), (readbackResults b handles s).1.length = handles.length := by
  intro handles
  induction handles with
  | nil => intro s; rfl
  | cons h rest ih => intro s; simp [readbackResults, ih]

/-- When the availability answers do not depend on the backend state, neither
does the short-circuiting poll. -/
lemma pollAvailability_const {σ : Type} (b : GlBackend σ)
    (hb : ∀ h pname s s', (b.GetQueryObjectiv h pname s).1 = (b.GetQueryObjectiv h pname s').1) :
    ∀ (handles : List Nat) (s s' : σ),
      (pollAvailability b handles s).1 = (pollAvailability b handles s').1 := by
  intro handles
  induction handles with
  | nil => intro s s'; rfl
  | cons h rest ih =>
    intro s s'
    simp only [pollAvailability]
    rw [← hb h QUERY_RESULT_AVAILABLE s s']
    by_cases hz : (b.GetQueryObjectiv h QUERY_RESULT_AVAILABLE s).1 ≠ 0
    · rw [if_pos hz, if_pos hz]
      exact ih _ _
    · rw [if_neg hz, if_neg hz]

lemma read_results_none_of_unavailable {σ : Type} (b : GlBackend σ) (f : GlProfilerFrame)
    (s : σ) (hav : frameAvailable b f s = false) :
    f.read_results b s
      = (none, f, (pollAvailability b (f.query_handles.take f.next_query_idx) s).2) := by
  unfold GlProfilerFrame.read_results
  unfold frameAvailable at hav
  simp [hav]

lemma read_results_some_of_available {σ : Type} (b : GlBackend σ) (f : GlProfilerFrame)
    (s : σ) (hav : frameAvailable b f s = true) (hwf : f.wf) :
    ∃ durations s', f.read_results b s
        = (some (f.query_scope_ids.take f.next_query_idx, durations),
           { f with results_buffer := durations ++ f.results_buffer.drop f.next_query_idx }, s')
      ∧ durations.length = f.next_query_idx := by
  obtain ⟨hwf1, hwf2, hwf3⟩ := hwf
  have hwc : min f.next_query_idx (min f.query_handles.length f.results_buffer.length)
      = f.next_query_idx := by omega
  unfold frameAvailable at hav
  have hrl : (readbackResults b
        (f.query_handles.take f.next_query_idx)
        (pollAvailability b (f.query_handles.take f.next_query_idx) s).2).1.length
      = f.next_query_idx := by
    rw [readbackResults_length]
    rw [List.length_take]
    omega
  refine ⟨(readbackResults b (f.query_handles.take f.next_query_idx)
      (pollAvailability b (f.query_handles.take f.next_query_idx) s).2).1,
    (readbackResults b (f.query_handles.take f.next_query_idx)
      (pollAvailability b (f.query_handles.take f.next_query_idx) s).2).2, ?_, hrl⟩
  unfold GlProfilerFrame.read_results
  simp only [hav, if_true, hwc, ite_true]
  rw [List.take_left' hrl]

/-- The drain loop reports a prefix of the waiting queue, strictly front to
back: there is a `k` such that exactly the first `k` frames (all of them fully
available) were reported, in queue order, the remaining queue is `drop k`, and
the frame at position `k` (the new front), if any, was polled unavailable. -/
lemma drainWaiting_fifo {σ : Type} (b : GlBackend σ)
    (hb : ∀ h pname s s', (b.GetQueryObjectiv h pname s).1 = (b.GetQueryObjectiv h pname s').1) :
    ∀ (W pool : List GlProfilerFrame) (s : σ) (prof : GpuProfiler)
      (W' pool' : List GlProfilerFrame) (s' : σ) (prof' : GpuProfiler)
      (tr : List (List (ScopeId × NanoSecond))),
      (∀ f ∈ W, f.wf) →
      drainWaiting b W pool s prof = .ok (W', pool', s', prof', tr) →
      ∃ k, k ≤ W.length ∧ W' = W.drop k ∧ tr.length = k ∧
        (∀ j, j < k → ∀ fj, W[j]? = some fj →
          (∀ s₀, frameAvailable b fj s₀ = true) ∧
          (tr[j]?).map (fun r => r.map Prod.fst)
            = some (fj.query_scope_ids.take fj.next_query_idx)) ∧
        (∀ fk, W[k]? = some fk → ∀ s₀, frameAvailable b fk s₀ = false) := by
  intro W
  induction W with
  | nil =>
    intro pool s prof W' pool' s' prof' tr hwf h
    simp only [drainWaiting, Except.ok.injEq, Prod.mk.injEq] at h
    obtain ⟨hW, -, -, -, htr⟩ := h
    refine ⟨0, by simp, by simp [← hW], by simp [← htr], ?_, ?_⟩
    · intro j hj; omega
    · intro fk hfk; simp at hfk
  | cons f rest ih =>
    intro pool s prof W' pool' s' prof' tr hwf h
    have hwff : f.wf := hwf f (by simp)
    have hwfrest : ∀ g ∈ rest, g.wf := fun g hg => hwf g (by simp [hg])
    cases hav : frameAvailable b f s with
    | false =>
      rw [show drainWaiting b (f :: rest) pool s prof
          = .ok (f :: rest, pool,
              (pollAvailability b (f.query_handles.take f.next_query_idx) s).2, prof, [])
        from by simp only [drainWaiting, read_results_none_of_unavailable b f s hav]] at h
      simp only [Except.ok.injEq, Prod.mk.injEq] at h
      obtain ⟨hW, -, -, -, htr⟩ := h
      refine ⟨0, by simp, by simp [← hW], by simp [← htr], ?_, ?_⟩
      · intro j hj; omega
      · intro fk hfk s₀
        simp at hfk
        subst hfk
        rw [frameAvailable, pollAvailability_const b hb _ s₀ s]
        exact hav
    | true =>
      obtain ⟨durations, s2, hrr, hdlen⟩ := read_results_some_of_available b f s hav hwff
      simp only [drainWaiting, hrr] at h
      cases hrep : prof.report_durations
          ((f.query_scope_ids.take f.next_query_idx).zip
            (durations.map NanoSecond.from_raw_ns)) with
      | error e => rw [hrep] at h; simp at h
      | ok prof2 =>
        simp only [hrep] at h
        cases hdr : drainWaiting b rest
            (pool ++ [GlProfilerFrame.reset
              { f with results_buffer := durations ++ f.results_buffer.drop f.next_query_idx }])
            s2 prof2 with
        | error e => simp [hdr] at h
        | ok res2 =>
          obtain ⟨W2, pool2, s2', prof2', trace2⟩ := res2
          simp only [hdr, Except.ok.injEq, Prod.mk.injEq] at h
          obtain ⟨hW, -, -, -, htr⟩ := h
          obtain ⟨k', hk'le, hdrop, htrlen, havail, hstop⟩ :=
            ih (pool ++ [GlProfilerFrame.reset
                { f with results_buffer := durations ++ f.results_buffer.drop f.next_query_idx }])
              s2 prof2 W2 pool2 s2' prof2' trace2 hwfrest hdr
          have htracelen : tr.length = k' + 1 := by rw [← htr]; simp [htrlen]
          refine ⟨k' + 1, by simp; omega, ?_, htracelen, ?_, ?_⟩
          · rw [← hW, hdrop]
            simp
          · intro j hj fj hfj
            cases j with
            | zero =>
              simp only [List.getElem?_cons_zero, Option.some.injEq] at hfj
              subst hfj
              constructor
              · intro s₀
                rw [frameAvailable, pollAvailability_const b hb _ s₀ s]
                exact hav
              · rw [← htr]
                simp only [List.getElem?_cons_zero, Option.map_some']
                rw [List.map_fst_zip]
                rw [List.length_take, List.length_map, hdlen]
                omega
            | succ j' =>
              have := havail j' (by omega) fj (by simpa using hfj)
              refine ⟨this.1, ?_⟩
              rw [← htr]
              simpa using this.2
          · intro fk hfk s₀
            exact hstop fk (by simpa using hfk) s₀

/-- C3: for every pool state and every (state-independent) pattern of backend
availability answers, a `try_get_results` drain never reports a newer frame
before an older one: the reported frames are exactly a prefix of the waiting
queue (front to back, trace entry `j` carrying frame `j`'s scope ids), the
queue keeps only the rest, and draining stopped at the first frame whose
results were not yet available — even if a later frame's results are
available. -/
theorem try_get_results_fifo {σ : Type} (b : GlBackend σ)
    (hb : ∀ h pname s s', (b.GetQueryObjectiv h pname s).1 = (b.GetQueryObjectiv h pname s').1)
    (gl gl' : GlProfiler) (s s' : σ) (prof prof' : GpuProfiler)
    (tr : List (List (ScopeId × NanoSecond)))
    (hwf : ∀ f ∈ gl.waiting_frames, f.wf)
    (h : gl.try_get_results b s prof = .ok (gl', s', prof', tr)) :
    ∃ k, k ≤ gl.waiting_frames.length ∧
      gl'.waiting_frames = gl.waiting_frames.drop k ∧
      tr.length = k ∧
      (∀ j, j < k → ∀ fj, gl.waiting_frames[j]? = some fj →
        (∀ s₀, frameAvailable b fj s₀ = true) ∧
        (tr[j]?).map (fun r => r.map Prod.fst)
          = some (fj.query_scope_ids.take fj.next_query_idx)) ∧
      (∀ fk, gl.waiting_frames[k]? = some fk → ∀ s₀, frameAvailable b fk s₀ = false) := by
  unfold GlProfiler.try_get_results at h
  cases hdr : drainWaiting b gl.waiting_frames gl.frame_pool s prof with
  | error e => rw [hdr] at h; simp at h
  | ok res =>
    obtain ⟨W2, pool2, s2, prof2, trace2⟩ := res
    rw [hdr] at h
    simp only [Except.ok.injEq, Prod.mk.injEq] at h
    obtain ⟨hgl, -, -, htr⟩ := h
    obtain ⟨k, hk, hdrop, htl, hava, hstop⟩ :=
      drainWaiting_fifo b hb gl.waiting_frames gl.frame_pool s prof W2 pool2 s2 prof2 trace2
        hwf hdr
    refine ⟨k, hk, ?_, by rw [← htr]; exact htl, ?_, hstop⟩
    · rw [← hgl]
      exact hdrop
    · intro j hj fj hfj
      have := hava j hj fj hfj
      exact ⟨this.1, by rw [← htr]; exact this.2⟩

/-- A poll-only backend (state `Unit`) for which query 1 is never available and
every other query is available: frame A below stays pending while frame B's
results are ready. -/
def fifoBackend : GlBackend Unit :=
  { GetQueryObjectiv := fun h _ s => (if h = 1 then 0 else 1, s)
    GetQueryObjectui64v := fun _ _ s => (42, s)
    GenQueries := fun n s => (List.range n, s)
    BeginQuery := fun _ _ s => s
    EndQuery := fun _ s => s }

/-- Older frame A: one used query with handle 1 (never available). -/
def frameA : GlProfilerFrame := ⟨[1], 1, [⟨0, 0⟩], [0]⟩

/-- Newer frame B: one used query with handle 2 (already available). -/
def frameB : GlProfilerFrame := ⟨[2], 1, [⟨1, 0⟩], [0]⟩

/-- Pool state with A (older, front) and B (newer) both awaiting readback. -/
def fifoPool : GlProfiler := ⟨none, [frameA, frameB], []⟩

theorem try_get_results_fifo_witness :
    ((∀ h pname s s', ((fifoBackend.GetQueryObjectiv h pname s).1
          = (fifoBackend.GetQueryObjectiv h pname s').1))
      ∧ (∀ f ∈ fifoPool.waiting_frames, f.wf)
      ∧ fifoPool.try_get_results fifoBackend () GpuProfiler.default
          = .ok (fifoPool, (), GpuProfiler.default, []))
    ∧ ∃ k, k ≤ fifoPool.waiting_frames.length ∧
        fifoPool.waiting_frames = fifoPool.waiting_frames.drop k ∧
        ([] : List (List (ScopeId × NanoSecond))).length = k ∧
        (∀ j, j < k → ∀ fj, fifoPool.waiting_frames[j]? = some fj →
          (∀ s₀, frameAvailable fifoBackend fj s₀ = true) ∧
          (([] : List (List (ScopeId × NanoSecond)))[j]?).map (fun r => r.map Prod.fst)
            = some (fj.query_scope_ids.take fj.next_query_idx)) ∧
        (∀ fk, fifoPool.waiting_frames[k]? = some fk →
          ∀ s₀, frameAvailable fifoBackend fk s₀ = false) :=
  ⟨⟨fun h pname s s' => rfl, by decide, rfl⟩,
   try_get_results_fifo fifoBackend (fun h pname s s' => rfl) fifoPool fifoPool () ()
     GpuProfiler.default GpuProfiler.default [] (by decide) rfl⟩

/-! ## Awaiting-queue capacity bound (C6) -/

/-- A poll-only backend (state `Unit`) for which no query ever becomes
available. -/
def noResultsBackend : GlBackend Unit :=
  { GetQueryObjectiv := fun _ _ s => (0, s)
    GetQueryObjectui64v := fun _ _ s => (0, s)
    GenQueries := fun n s => (List.range n, s)
    BeginQuery := fun _ _ s => s
    EndQuery := fun _ s => s }

/-- One complete GL frame against the pool and the global profiler:
`begin_frame`, one profiled scope, `end_frame`. -/
def glCycle {σ : Type} (b : GlBackend σ) (gl : GlProfiler) (s : σ) (prof : GpuProfiler) :
    Except String (GlProfiler × σ × GpuProfiler) :=
  match gl.begin_frame b s prof with
  | .error e => .error e
  | .ok (gl, s, prof, _) =>
    match prof.create_scope "scope" with
    | .error e => .error e
    | .ok (sid, prof) =>
      match gl.begin_scope b s sid with
      | .error e => .error e
      | .ok (a, gl, s) =>
        match gl.end_scope b s a with
        | .error e => .error e
        | .ok s =>
          match gl.end_frame prof with
          | .error e => .error e
          | .ok (gl, prof) => .ok (gl, s, prof)

/-- `n` consecutive complete GL frames. -/
def glCycles {σ : Type} (b : GlBackend σ) :
    Nat → GlProfiler × σ × GpuProfiler → Except String (GlProfiler × σ × GpuProfiler)
  | 0, st => .ok st
  | n + 1, st =>
    match glCycle b st.1 st.2.1 st.2.2 with
    | .error e => .error e
    | .ok st => glCycles b n st

/-- After 9 completed frames with a never-available backend, the error of the
10th `begin_frame`, if any: `none` means that call succeeded. -/
def tenthBeginFrameError : Option String :=
  match glCycles noResultsBackend 9 (GlProfiler.new, (), GpuProfiler.default) with
  | .error e => some e
  | .ok (gl, s, prof) =>
    match gl.begin_frame noResultsBackend s prof with
    | .error e => some e
    | .ok _ => none

set_option maxRecDepth 40000 in
/-- C6 counterexample: with a poll-based backend that never reports
availability, after 9 completed frames the 10th `begin_frame` call succeeds —
the fatal capacity violation "OpenGL queries failed to become available" is
raised by the 10th `end_frame` call (the queue-depth assert lives in
`end_frame`), not by `begin_frame`. -/
theorem tenth_begin_frame_succeeds :
    tenthBeginFrameError = none
      ∧ glCycles noResultsBackend 10 (GlProfiler.new, (), GpuProfiler.default)
          = .error "OpenGL queries failed to become available" := ⟨rfl, rfl⟩

/-- C6 (amended): the awaiting-queue bound is enforced in `end_frame`: whenever
a frame is being recorded and at least 9 frames already await readback (as
after 9 completed frames whose results never became available), the next
`end_frame` — not `begin_frame` — fails fatally with the capacity violation
"OpenGL queries failed to become available" instead of hanging or growing the
queue unboundedly. -/
theorem end_frame_capacity_violation (gl : GlProfiler) (prof : GpuProfiler)
    (f : GlProfilerFrame) (hc : gl.current_frame = some f)
    (h9 : 9 ≤ gl.waiting_frames.length) :
    gl.end_frame prof = .error "OpenGL queries failed to become available" := by
  have hlen : ¬((gl.waiting_frames ++ [f]).length < 10) := by simp; omega
  unfold GlProfiler.end_frame
  simp only [hc]
  rw [if_neg hlen]

/-- A pool state with one recording frame and 9 awaiting frames. -/
def capacityPool : GlProfiler :=
  ⟨some ⟨[], 0, [], []⟩, List.replicate 9 ⟨[], 0, [], []⟩, []⟩

theorem end_frame_capacity_violation_witness :
    (capacityPool.current_frame = some ⟨[], 0, [], []⟩
      ∧ 9 ≤ capacityPool.waiting_frames.length)
    ∧ capacityPool.end_frame GpuProfiler.default
        = .error "OpenGL queries failed to become available" :=
  ⟨⟨rfl, by decide⟩,
   end_frame_capacity_violation capacityPool GpuProfiler.default ⟨[], 0, [], []⟩ rfl (by decide)⟩

end GpuProfilerModel
